import Mathlib

/-!
# Verification of the Mercedes OAuth2/OIDC identity handlers

Shallow embedding of `vehicle/mercedes/identity.go`: the login, logout and
callback HTTP handlers of the `Identity` type, together with models of the
collaborating pieces that are declared elsewhere in the repository (the
encrypted CSRF state token and the `ReuseTokenSource`), which are modelled
from the specification.

Conventions of the embedding:
* HTTP responses are a record of status code, body string and optional
  redirect location (the `Location` header written by `http.Redirect`).
* Nondeterministic or external effects (random nonce generation, OIDC
  provider discovery, the network call `oc.Exchange`) are passed in as
  explicit inputs.
* Sends on the `authC chan<- bool` are recorded as a list of booleans.
* `token.Valid()` of the external oauth2 library is abstracted as a boolean
  field of the token value.
-/

namespace Mercedes

/-- Abstraction of `oauth2.Token`; `valid` models the external library's
`token.Valid()` check (non-empty access token, not expired). -/
structure OAuthToken where
  accessToken : String
  valid : Bool
deriving Repr, DecidableEq

/-- Validation failures of the state token, from the specification's
taxonomy: `TamperedOrForged` when the authenticity tag does not verify,
`Malformed` when the string cannot be decoded. -/
inductive StateError where
  | TamperedOrForged
  | Malformed
deriving Repr, DecidableEq

/-- Modelled from the spec: the state-token file (`state.go`) is not part of
the provided sources. Ideal message-authentication code over the session
secret: the tag determines (secret, payload) uniquely, modelling a
collision-free MAC. -/
def mac (secret payload : Nat) : Nat := Nat.pair secret payload

/-- Modelled from the spec: URL-safe opaque encoding of a natural number
(the encrypted state token is an opaque string; we use the unary encoding
so that decoding is exact). -/
def natEncode (n : Nat) : String := String.mk (List.replicate n 'x')

/-- Modelled from the spec: decoding of `natEncode`; returns `none` for a
string that is not a well-formed token (the `Malformed` case). -/
def natDecode (s : String) : Option Nat :=
  if s.data.all (fun c => c = 'x') then some s.data.length else none

/-- Modelled from the spec: `NewState(secret)` followed by `Encrypt()` —
mints a fresh state token from a random `nonce`, authenticated under
`secret`.  Stateless: no server-side record of issued states is kept. -/
def mintState (secret nonce : Nat) : String :=
  natEncode (Nat.pair nonce (mac secret nonce))

/-- Modelled from the spec: `Validate(token, secret)` — decodes the token and
verifies its authenticity tag under `secret`; fails with `Malformed` when the
string cannot be decoded and `TamperedOrForged` when the tag does not
verify. -/
def Validate (s : String) (secret : Nat) : Except StateError Unit :=
  match natDecode s with
  | none => .error .Malformed
  | some n =>
    if mac secret (Nat.unpair n).1 = (Nat.unpair n).2 then .ok ()
    else .error .TamperedOrForged

/-- Rendering of a `StateError`, standing in for the Go error string inserted
by `fmt.Fprintf(w, "failed state validation: %s", err)`. -/
def renderStateError : StateError → String
  | .TamperedOrForged => "tampered or forged state"
  | .Malformed => "malformed state"

/-- The `oauth2.Config` fields this unit reads or writes. -/
structure OAuthConfig where
  clientID : String
  clientSecret : String
  authURL : String
  redirectURL : String
deriving Repr, DecidableEq

/-- A structured authorization URL: base endpoint plus query parameters.
Abstraction of the string produced by the external `oc.AuthCodeURL`. -/
structure AuthURL where
  base : String
  params : List (String × String)
deriving Repr, DecidableEq

/-- Abstraction of the external `oc.AuthCodeURL(state, AccessTypeOffline,
SetAuthURLParam("prompt", "login consent"))`: the provider authorization
endpoint with the standard query parameters, the forced-consent prompt and
the given `state`. -/
def AuthCodeURL (oc : OAuthConfig) (state : String) : AuthURL :=
  { base := oc.authURL
    params :=
      [ ("response_type", "code")
      , ("client_id", oc.clientID)
      , ("redirect_uri", oc.redirectURL)
      , ("scope", "offline_access mb:vehicle:mbdata:evstatus")
      , ("access_type", "offline")
      , ("prompt", "login consent")
      , ("state", state) ] }

/-- Flat rendering of an `AuthURL`, used for the JSON login body. -/
def renderURL (u : AuthURL) : String :=
  u.base ++ "?" ++
    String.intercalate "&" (u.params.map (fun p => p.1 ++ "=" ++ p.2))

/-- An HTTP response as produced by one handler invocation: status code,
body, and the redirect `Location` header when `http.Redirect` was called. -/
structure HttpResponse where
  status : Nat
  body : String
  location : Option String
deriving Repr, DecidableEq

/-- The mutable state of an `Identity` instance.  `ts` is the token cached
inside its `ReuseTokenSource`; `authCSet` records whether the notification
channel `authC` has been wired (it is `nil` until `SetCallbackParams`). -/
structure Identity where
  sessionSecret : Nat
  oc : OAuthConfig
  ts : Option OAuthToken
  authCSet : Bool
deriving Repr, DecidableEq

/-- `SetCallbackParams(uri, authC)`: sets the redirect URL on the shared
oauth2 config and wires the notification channel. -/
def SetCallbackParams (v : Identity) (uri : String) : Identity :=
  { v with oc := { v.oc with redirectURL := uri }, authCSet := true }

/-- `invalidToken`: the `ReuseTokenSource` invalidation callback.  Returns
the sends performed on `authC`: a single `false` when the channel is wired,
nothing when `authC` is still `nil`. -/
def invalidToken (v : Identity) : List Bool :=
  if v.authCSet then [false] else []

/-- The parsed callback query (`url.Values` restricted to the keys the
handler reads).  `errorDescription` uses the zero value `[]` when the key is
absent, as Go's map indexing does. -/
structure Query where
  error : Option (List String)
  errorDescription : List String
  state : Option (List String)
  code : Option (List String)
deriving Repr, DecidableEq

/-- One callback HTTP request together with the behaviour of the external
collaborators it triggers: `parsed` is the result of `url.ParseQuery`
(`none` models a parse error), `exchange` is the outcome of the network call
`oc.Exchange` for a given code. -/
structure CallbackRequest where
  parsed : Option Query
  exchange : String → Except String OAuthToken

/-- Steps of a single callback invocation, used to state the ordering
guarantee.  `validateOk`/`validateFail` record the outcome of state
validation, `exchangeOk`/`exchangeFail` the outcome of the code exchange. -/
inductive Step where
  | validateOk
  | validateFail
  | exchangeOk
  | exchangeFail
  | applyToken
  | notify
deriving Repr, DecidableEq

/-- Go's `%s` rendering of a `[]string` value: `[a b]`. -/
def renderList (xs : List String) : String :=
  "[" ++ String.intercalate " " xs ++ "]"

/-- Rendering of the parsed query for the diagnostic bodies that print
`data` (abstracts Go's `%v` rendering of `url.Values`). -/
def renderQuery (d : Query) : String :=
  "map[code:" ++ (d.code.map renderList).getD "" ++
  " error:" ++ (d.error.map renderList).getD "" ++
  " error_description:" ++ renderList d.errorDescription ++
  " state:" ++ (d.state.map renderList).getD "" ++ "]"

/-- The full observable outcome of one `CallbackHandler` invocation: the
HTTP response, the token cached in the `ReuseTokenSource` afterwards, the
sends performed on `authC`, whether `provider.ResetCached()` ran, and the
trace of steps performed. -/
structure CallbackResult where
  resp : HttpResponse
  ts : Option OAuthToken
  events : List Bool
  resetCached : Bool
  trace : List Step

/-- `CallbackHandler(baseURI)`: parses the query, rejects provider errors,
validates the state token against the session secret, checks for exactly one
code, exchanges it for a token, and — when the token is valid — applies it
to the `ReuseTokenSource`, sends `true` on `authC` and resets the provider
cache; finally redirects to `baseURI` (302) whenever the exchange
succeeded.  Every failure is reported inline in the (implicitly 200)
response body. -/
def CallbackHandler (baseURI : String) (v : Identity) (r : CallbackRequest) :
    CallbackResult :=
  match r.parsed with
  | none =>
    { resp := ⟨200, "invalid response: map[]\n", none⟩
      ts := v.ts, events := [], resetCached := false, trace := [] }
  | some data =>
    match data.error with
    | some errs =>
      { resp := ⟨200, "error: " ++ renderList errs ++ ": " ++
          renderList data.errorDescription ++ "\n", none⟩
        ts := v.ts, events := [], resetCached := false, trace := [] }
    | none =>
      match data.state with
      | some [st] =>
        match Validate st v.sessionSecret with
        | .error e =>
          { resp := ⟨200, "failed state validation: " ++
              renderStateError e, none⟩
            ts := v.ts, events := [], resetCached := false
            trace := [.validateFail] }
        | .ok _ =>
          match data.code with
          | some [c] =>
            match r.exchange c with
            | .error e =>
              { resp := ⟨200, "token error: " ++ e ++ "\n", none⟩
                ts := v.ts, events := [], resetCached := false
                trace := [.validateOk, .exchangeFail] }
            | .ok token =>
              if token.valid then
                { resp := ⟨302, "", some baseURI⟩
                  ts := some token, events := [true], resetCached := true
                  trace := [.validateOk, .exchangeOk, .applyToken, .notify] }
              else
                { resp := ⟨302, "", some baseURI⟩
                  ts := v.ts, events := [], resetCached := false
                  trace := [.validateOk, .exchangeOk] }
          | _ =>
            { resp := ⟨200, "invalid response: " ++ renderQuery data ++ "\n",
                none⟩
              ts := v.ts, events := [], resetCached := false
              trace := [.validateOk] }
      | _ =>
        { resp := ⟨200, "invalid state response: " ++ renderQuery data ++
            "\n", none⟩
          ts := v.ts, events := [], resetCached := false, trace := [] }

/-- `LoginHandler`: mints a fresh state token (`nonce` stands for the random
payload drawn inside `NewState`) and answers 200 with the JSON body
`{"loginUri": <authorization URL>}`. -/
def LoginHandler (v : Identity) (nonce : Nat) : HttpResponse :=
  ⟨200,
    "\x7b\"loginUri\":\"" ++
      renderURL (AuthCodeURL v.oc (mintState v.sessionSecret nonce)) ++
      "\"\x7d",
    none⟩

/-- Outcome of one `LogoutHandler` invocation. -/
structure LogoutResult where
  resp : HttpResponse
  ident : Identity
  events : List Bool

/-- `LogoutHandler`: clears the cached token via `Apply(nil)`, sends `false`
on `authC` and answers 200 with an empty body. -/
def LogoutHandler (v : Identity) : LogoutResult :=
  { resp := ⟨200, "", none⟩
    ident := { v with ts := none }
    events := [false] }

/-- Modelled from the spec: `ReuseTokenSource.Token()` (`reuse.go` is not
part of the provided sources).  Returns the cached token while it is valid;
otherwise attempts a refresh (`refresh` is the outcome of the external token
endpoint call).  On refresh failure the cache is cleared and the
invalidation callback fires.  The result is (returned token or error, new
cache, whether a refresh was attempted, callback sends). -/
def tokenSourceToken (v : Identity) (cached : Option OAuthToken)
    (refresh : Except String OAuthToken) :
    Except String OAuthToken × Option OAuthToken × Bool × List Bool :=
  match cached with
  | some t =>
    if t.valid then (.ok t, some t, false, [])
    else
      match refresh with
      | .ok t2 => (.ok t2, some t2, true, [])
      | .error e => (.error e, none, true, invalidToken v)
  | none =>
    match refresh with
    | .ok t2 => (.ok t2, some t2, true, [])
    | .error e => (.error e, none, true, invalidToken v)

/-- The provider endpoint data obtained by OIDC discovery. -/
structure ProviderEndpoint where
  authURL : String
  tokenURL : String
deriving Repr, DecidableEq

/-- An `IdentityOptions` value: mutates the identity and may fail.
`WithToken(t)` is `fun v => ({ v with ts := some t }, none)`. -/
def IdentityOption : Type := Identity → Identity × Option String

/-- `NewIdentity`: if OIDC discovery (`discovery` is the outcome of the
external `oidc.NewProvider` call) fails, returns `(nil, wrapped error)`.
Otherwise builds the oauth2 config, the token source (cache cleared), draws
the session secret (`secretGen` is the outcome of `generateSecret`), and
applies each option while no error has occurred.  The Go function returns
the non-nil identity together with any non-fatal error. -/
def NewIdentity (discovery : Except String ProviderEndpoint)
    (id secret : String) (secretGen : Except String Nat)
    (options : List IdentityOption) : Option Identity × Option String :=
  match discovery with
  | .error e => (none, some ("failed to initialize OIDC provider: " ++ e))
  | .ok ep =>
    let oc : OAuthConfig :=
      { clientID := id, clientSecret := secret, authURL := ep.authURL
        redirectURL := "" }
    let sec : Nat :=
      match secretGen with
      | .ok s => s
      | .error _ => 0
    let err0 : Option String :=
      match secretGen with
      | .ok _ => none
      | .error e => some e
    let v0 : Identity :=
      { sessionSecret := sec, oc := oc, ts := none, authCSet := false }
    let res := options.foldl
      (fun acc o =>
        match acc.2 with
        | some _ => acc
        | none => o acc.1)
      (v0, err0)
    (some res.1, res.2)

/-- The success path of the callback handler: the query parses, carries no
provider error, exactly one state value that validates, exactly one code,
and the code exchange succeeds. -/
def successPath (v : Identity) (r : CallbackRequest) : Prop :=
  ∃ data st c t, r.parsed = some data ∧ data.error = none ∧
    data.state = some [st] ∧ Validate st v.sessionSecret = .ok () ∧
    data.code = some [c] ∧ r.exchange c = .ok t

/-! ## Basic lemmas about the state-token scheme and strings -/

theorem natDecode_natEncode (n : Nat) : natDecode (natEncode n) = some n := by
  simp [natDecode, natEncode, List.all_eq_true, List.mem_replicate]

theorem Validate_mintState (s k : Nat) : Validate (mintState s k) s = .ok () := by
  simp [Validate, mintState, natDecode_natEncode, Nat.unpair_pair]

theorem Validate_mintState_ne (s₁ s₂ k : Nat) (h : s₁ ≠ s₂) :
    Validate (mintState s₁ k) s₂ = .error .TamperedOrForged := by
  have hne : mac s₂ k ≠ mac s₁ k := by
    intro h2
    exact h ((Nat.pair_eq_pair.mp h2).1.symm)
  simp [Validate, mintState, natDecode_natEncode, Nat.unpair_pair, hne]

theorem data_append_ne_nil (s t : String) (h : s.data ≠ []) :
    (s ++ t).data ≠ [] := by
  intro hc
  rw [String.data_append] at hc
  exact h (List.append_eq_nil.mp hc).1

theorem ne_empty_of_data_ne_nil (s : String) (h : s.data ≠ []) : s ≠ "" :=
  fun hc => h (by rw [hc])

theorem append1_ne_empty (s x : String) (hs : s.data ≠ []) : s ++ x ≠ "" :=
  ne_empty_of_data_ne_nil _ (data_append_ne_nil _ _ hs)

theorem append2_ne_empty (s x t : String) (hs : s.data ≠ []) :
    s ++ x ++ t ≠ "" :=
  ne_empty_of_data_ne_nil _
    (data_append_ne_nil _ _ (data_append_ne_nil _ _ hs))

theorem append4_ne_empty (s a b c d : String) (hs : s.data ≠ []) :
    s ++ a ++ b ++ c ++ d ≠ "" :=
  ne_empty_of_data_ne_nil _
    (data_append_ne_nil _ _ (data_append_ne_nil _ _
      (data_append_ne_nil _ _ (data_append_ne_nil _ _ hs))))

/-- Any request that does not reach the success path gets an implicit-200
response with a non-empty diagnostic body, no redirect, an unchanged token
cache and no notification. -/
theorem callback_failure_invariant (baseURI : String) (v : Identity)
    (r : CallbackRequest) (h : ¬ successPath v r) :
    (CallbackHandler baseURI v r).resp.status = 200 ∧
    (CallbackHandler baseURI v r).resp.location = none ∧
    (CallbackHandler baseURI v r).resp.body ≠ "" ∧
    (CallbackHandler baseURI v r).ts = v.ts ∧
    (CallbackHandler baseURI v r).events = [] := by
  obtain ⟨parsed, exchange⟩ := r
  cases parsed with
  | none =>
    refine ⟨rfl, rfl, ?_, rfl, rfl⟩
    show "invalid response: map[]\n" ≠ ""
    decide
  | some data =>
    obtain ⟨derror, ddesc, dstate, dcode⟩ := data
    cases derror with
    | some errs =>
      exact ⟨rfl, rfl, append4_ne_empty _ _ _ _ _ (by decide), rfl, rfl⟩
    | none =>
      cases dstate with
      | none =>
        exact ⟨rfl, rfl, append2_ne_empty _ _ _ (by decide), rfl, rfl⟩
      | some sts =>
        match sts with
        | [] =>
          exact ⟨rfl, rfl, append2_ne_empty _ _ _ (by decide), rfl, rfl⟩
        | st :: b :: tl =>
          exact ⟨rfl, rfl, append2_ne_empty _ _ _ (by decide), rfl, rfl⟩
        | [st] =>
          cases hval : Validate st v.sessionSecret with
          | error e =>
            refine ⟨?_, ?_, ?_, ?_, ?_⟩ <;>
              simp only [CallbackHandler, hval]
            exact append1_ne_empty _ _ (by decide)
          | ok u =>
            cases u
            cases dcode with
            | none =>
              refine ⟨?_, ?_, ?_, ?_, ?_⟩ <;>
                simp only [CallbackHandler, hval]
              exact append2_ne_empty _ _ _ (by decide)
            | some codes =>
              match codes with
              | [] =>
                refine ⟨?_, ?_, ?_, ?_, ?_⟩ <;>
                  simp only [CallbackHandler, hval]
                exact append2_ne_empty _ _ _ (by decide)
              | c :: b :: tl =>
                refine ⟨?_, ?_, ?_, ?_, ?_⟩ <;>
                  simp only [CallbackHandler, hval]
                exact append2_ne_empty _ _ _ (by decide)
              | [c] =>
                cases hx : exchange c with
                | error e2 =>
                  refine ⟨?_, ?_, ?_, ?_, ?_⟩ <;>
                    simp only [CallbackHandler, hval, hx]
                  exact append2_ne_empty _ _ _ (by decide)
                | ok token =>
                  exact absurd
                    ⟨⟨none, ddesc, some [st], some [c]⟩, st, c, token,
                      rfl, rfl, rfl, hval, rfl, hx⟩ h

/-! ## Concrete sample values used by the witnesses -/

/-- A sample oauth2 configuration. -/
def sampleOC : OAuthConfig :=
  ⟨"client-id", "client-secret", "https://id.mercedes-benz.com/authorize",
    "https://redirect.example"⟩

/-- A sample identity with session secret `0` and a wired channel. -/
def sampleIdentity : Identity := ⟨0, sampleOC, none, true⟩

/-- A sample identity whose session secret is `1`. -/
def sampleIdentity1 : Identity := ⟨1, sampleOC, none, true⟩

/-- A sample valid token. -/
def sampleToken : OAuthToken := ⟨"access", true⟩

/-- A sample token that fails `token.Valid()`. -/
def sampleBadToken : OAuthToken := ⟨"", false⟩

/-! ## The claims -/

/-- Claim C3: every login request is answered 200 with the JSON body
`{"loginUri": <authorization URL>}`; the URL's query carries a `state`
parameter minted from the instance's session secret, and that state
validates against the same instance's secret. -/
theorem LoginHandler_state_validates (v : Identity) (nonce : Nat) :
    (LoginHandler v nonce).status = 200 ∧
    (LoginHandler v nonce).location = none ∧
    (LoginHandler v nonce).body =
      "\x7b\"loginUri\":\"" ++
        renderURL (AuthCodeURL v.oc (mintState v.sessionSecret nonce)) ++
        "\"\x7d" ∧
    ("state", mintState v.sessionSecret nonce) ∈
      (AuthCodeURL v.oc (mintState v.sessionSecret nonce)).params ∧
    Validate (mintState v.sessionSecret nonce) v.sessionSecret = .ok () := by
  refine ⟨rfl, rfl, rfl, ?_, Validate_mintState _ _⟩
  simp [AuthCodeURL]

/-- Claim C4: a state minted under secret `S₁` is rejected as
`TamperedOrForged` under any different secret `S₂`, so a callback carrying
a state from a different identity instance gets a failure response — 200
with no redirect, no token application and no notification. -/
theorem cross_instance_state_rejected (S₁ S₂ nonce : Nat) (baseURI : String)
    (v : Identity) (r : CallbackRequest) (data : Query)
    (hne : S₁ ≠ S₂) (hsec : v.sessionSecret = S₂)
    (hp : r.parsed = some data) (he : data.error = none)
    (hst : data.state = some [mintState S₁ nonce]) :
    Validate (mintState S₁ nonce) S₂ = .error .TamperedOrForged ∧
    (CallbackHandler baseURI v r).resp.status = 200 ∧
    (CallbackHandler baseURI v r).resp.location = none ∧
    (CallbackHandler baseURI v r).ts = v.ts ∧
    (CallbackHandler baseURI v r).events = [] := by
  have hv := Validate_mintState_ne S₁ S₂ nonce hne
  refine ⟨hv, ?_, ?_, ?_, ?_⟩ <;>
    simp [CallbackHandler, hp, he, hst, hsec, hv]

/-- Witness for `cross_instance_state_rejected`: secrets `0 ≠ 1`. -/
theorem cross_instance_state_rejected_witness :
    Validate (mintState 0 0) 1 = .error .TamperedOrForged ∧
    (CallbackHandler "https://base" sampleIdentity1
      ⟨some ⟨none, [], some [mintState 0 0], some ["c"]⟩,
        fun _ => .ok sampleToken⟩).resp.status = 200 ∧
    (CallbackHandler "https://base" sampleIdentity1
      ⟨some ⟨none, [], some [mintState 0 0], some ["c"]⟩,
        fun _ => .ok sampleToken⟩).resp.location = none ∧
    (CallbackHandler "https://base" sampleIdentity1
      ⟨some ⟨none, [], some [mintState 0 0], some ["c"]⟩,
        fun _ => .ok sampleToken⟩).ts = sampleIdentity1.ts ∧
    (CallbackHandler "https://base" sampleIdentity1
      ⟨some ⟨none, [], some [mintState 0 0], some ["c"]⟩,
        fun _ => .ok sampleToken⟩).events = [] :=
  cross_instance_state_rejected 0 1 0 "https://base" sampleIdentity1
    ⟨some ⟨none, [], some [mintState 0 0], some ["c"]⟩,
      fun _ => .ok sampleToken⟩
    ⟨none, [], some [mintState 0 0], some ["c"]⟩
    (by decide) rfl rfl rfl rfl

/-- Claim C7: logout clears the cached token, emits exactly one `false`,
answers 200 with an empty body, and a subsequent `Token()` call attempts a
refresh — its outcome is exactly the refresh outcome, never the cache. -/
theorem LogoutHandler_clears (v : Identity)
    (refresh : Except String OAuthToken) :
    (LogoutHandler v).resp = ⟨200, "", none⟩ ∧
    (LogoutHandler v).events = [false] ∧
    (LogoutHandler v).ident.ts = none ∧
    (tokenSourceToken v (LogoutHandler v).ident.ts refresh).2.2.1 = true ∧
    (tokenSourceToken v (LogoutHandler v).ident.ts refresh).1 = refresh := by
  refine ⟨rfl, rfl, rfl, ?_, ?_⟩ <;> cases refresh <;> rfl

/-- Claim C8: OIDC discovery failure makes `NewIdentity` return a nil
identity together with the wrapped non-nil error, and an identity value is
produced whenever discovery succeeds — never a partially-initialized one. -/
theorem NewIdentity_discovery (e id secret : String)
    (secretGen : Except String Nat) (options : List IdentityOption) :
    NewIdentity (.error e) id secret secretGen options =
      (none, some ("failed to initialize OIDC provider: " ++ e)) ∧
    ∀ ep, ((NewIdentity (.ok ep) id secret secretGen options).1).isSome
      = true :=
  ⟨rfl, fun _ => rfl⟩

/-- Claim C10: the invalidation callback is a silent no-op while `authC` is
nil and sends a single `false` once `SetCallbackParams` has wired the
channel; a refresh failure therefore notifies only in the wired case. -/
theorem invalidToken_channel_guard (v : Identity) (uri e : String) :
    invalidToken { v with authCSet := false } = [] ∧
    invalidToken (SetCallbackParams v uri) = [false] ∧
    (tokenSourceToken { v with authCSet := false } none
      (.error e)).2.2.2 = [] ∧
    (tokenSourceToken (SetCallbackParams v uri) none
      (.error e)).2.2.2 = [false] :=
  ⟨rfl, rfl, rfl, rfl⟩

/-- Claim C1 as frozen is refuted by a query that additionally carries an
`error` parameter: it contains exactly one validating state value, exactly
one code value, and its exchange would return a valid token, yet the
handler answers 200 with no redirect, applies no token and sends no
notification, because the provider-error check runs first. -/
theorem CallbackHandler_success_counterexample :
    Validate (mintState 0 0) sampleIdentity.sessionSecret = .ok () ∧
    (⟨some ⟨some ["access_denied"], ["user cancelled"],
        some [mintState 0 0], some ["c"]⟩,
      fun _ => .ok sampleToken⟩ : CallbackRequest).exchange "c" =
        .ok sampleToken ∧
    sampleToken.valid = true ∧
    (CallbackHandler "https://base" sampleIdentity
      ⟨some ⟨some ["access_denied"], ["user cancelled"],
        some [mintState 0 0], some ["c"]⟩,
        fun _ => .ok sampleToken⟩).resp.status = 200 ∧
    (CallbackHandler "https://base" sampleIdentity
      ⟨some ⟨some ["access_denied"], ["user cancelled"],
        some [mintState 0 0], some ["c"]⟩,
        fun _ => .ok sampleToken⟩).resp.location = none ∧
    (CallbackHandler "https://base" sampleIdentity
      ⟨some ⟨some ["access_denied"], ["user cancelled"],
        some [mintState 0 0], some ["c"]⟩,
        fun _ => .ok sampleToken⟩).events = [] ∧
    (CallbackHandler "https://base" sampleIdentity
      ⟨some ⟨some ["access_denied"], ["user cancelled"],
        some [mintState 0 0], some ["c"]⟩,
        fun _ => .ok sampleToken⟩).ts = none :=
  ⟨Validate_mintState 0 0, rfl, rfl, rfl, rfl, rfl, rfl⟩

/-- Claim C1 (amended): for every callback request whose query parses,
carries no provider `error` parameter, exactly one state value that
validates against the instance's secret, and exactly one code value, and
whose code exchange returns a valid token, the handler applies the token
to the ReuseTokenSource, sends exactly one `true` on the notification
channel, and responds 302 to the configured base URI. -/
theorem CallbackHandler_success (baseURI : String) (v : Identity)
    (r : CallbackRequest) (data : Query) (st c : String) (token : OAuthToken)
    (hp : r.parsed = some data) (he : data.error = none)
    (hst : data.state = some [st])
    (hv : Validate st v.sessionSecret = .ok ())
    (hc : data.code = some [c])
    (hx : r.exchange c = .ok token) (htv : token.valid = true) :
    (CallbackHandler baseURI v r).ts = some token ∧
    (CallbackHandler baseURI v r).events = [true] ∧
    (CallbackHandler baseURI v r).resp.status = 302 ∧
    (CallbackHandler baseURI v r).resp.location = some baseURI := by
  refine ⟨?_, ?_, ?_, ?_⟩ <;>
    simp [CallbackHandler, hp, he, hst, hv, hc, hx, htv]

/-- Witness for `CallbackHandler_success` at a concrete request. -/
theorem CallbackHandler_success_witness :
    (CallbackHandler "https://base" sampleIdentity
      ⟨some ⟨none, [], some [mintState 0 0], some ["c"]⟩,
        fun _ => .ok sampleToken⟩).ts = some sampleToken ∧
    (CallbackHandler "https://base" sampleIdentity
      ⟨some ⟨none, [], some [mintState 0 0], some ["c"]⟩,
        fun _ => .ok sampleToken⟩).events = [true] ∧
    (CallbackHandler "https://base" sampleIdentity
      ⟨some ⟨none, [], some [mintState 0 0], some ["c"]⟩,
        fun _ => .ok sampleToken⟩).resp.status = 302 ∧
    (CallbackHandler "https://base" sampleIdentity
      ⟨some ⟨none, [], some [mintState 0 0], some ["c"]⟩,
        fun _ => .ok sampleToken⟩).resp.location = some "https://base" :=
  CallbackHandler_success "https://base" sampleIdentity
    ⟨some ⟨none, [], some [mintState 0 0], some ["c"]⟩,
      fun _ => .ok sampleToken⟩
    ⟨none, [], some [mintState 0 0], some ["c"]⟩
    (mintState 0 0) "c" sampleToken
    rfl rfl rfl (Validate_mintState 0 0) rfl rfl rfl

/-- Claim C2: every failing callback request — unparsable query, provider
error parameter, missing or non-single state value, state failing
validation, missing or non-single code value, or code-exchange error — is
answered 200 with a non-empty plain-text body, no redirect, an unchanged
token cache and no notification. -/
theorem CallbackHandler_failure (baseURI : String) (v : Identity)
    (r : CallbackRequest)
    (h : r.parsed = none ∨ ∃ data, r.parsed = some data ∧
      (data.error ≠ none ∨
       (∀ st, data.state ≠ some [st]) ∨
       (∃ st e, data.state = some [st] ∧
         Validate st v.sessionSecret = .error e) ∨
       (∀ c, data.code ≠ some [c]) ∨
       (∃ c e, data.code = some [c] ∧ r.exchange c = .error e))) :
    (CallbackHandler baseURI v r).resp.status = 200 ∧
    (CallbackHandler baseURI v r).resp.location = none ∧
    (CallbackHandler baseURI v r).resp.body ≠ "" ∧
    (CallbackHandler baseURI v r).ts = v.ts ∧
    (CallbackHandler baseURI v r).events = [] := by
  apply callback_failure_invariant
  rintro ⟨data, st, c, t, hp, he, hst, hval, hc, hx⟩
  rcases h with h | ⟨data2, hp2, h⟩
  · rw [hp] at h
    exact Option.noConfusion h
  · rw [hp] at hp2
    injection hp2 with hd
    subst hd
    rcases h with h | h | ⟨st2, e, hst2, hval2⟩ | h | ⟨c2, e, hc2, hx2⟩
    · exact h he
    · exact h st hst
    · rw [hst] at hst2
      injection hst2 with hl
      injection hl with h1 _
      subst h1
      rw [hval] at hval2
      exact Except.noConfusion hval2
    · exact h c hc
    · rw [hc] at hc2
      injection hc2 with hl
      injection hl with h1 _
      subst h1
      rw [hx] at hx2
      exact Except.noConfusion hx2

/-- Witness for `CallbackHandler_failure`: a provider-error request. -/
theorem CallbackHandler_failure_witness :
    (CallbackHandler "https://base" sampleIdentity
      ⟨some ⟨some ["access_denied"], [], none, none⟩,
        fun _ => .ok sampleToken⟩).resp.status = 200 ∧
    (CallbackHandler "https://base" sampleIdentity
      ⟨some ⟨some ["access_denied"], [], none, none⟩,
        fun _ => .ok sampleToken⟩).resp.location = none ∧
    (CallbackHandler "https://base" sampleIdentity
      ⟨some ⟨some ["access_denied"], [], none, none⟩,
        fun _ => .ok sampleToken⟩).resp.body ≠ "" ∧
    (CallbackHandler "https://base" sampleIdentity
      ⟨some ⟨some ["access_denied"], [], none, none⟩,
        fun _ => .ok sampleToken⟩).ts = sampleIdentity.ts ∧
    (CallbackHandler "https://base" sampleIdentity
      ⟨some ⟨some ["access_denied"], [], none, none⟩,
        fun _ => .ok sampleToken⟩).events = [] :=
  CallbackHandler_failure "https://base" sampleIdentity
    ⟨some ⟨some ["access_denied"], [], none, none⟩,
      fun _ => .ok sampleToken⟩
    (Or.inr ⟨⟨some ["access_denied"], [], none, none⟩, rfl,
      Or.inl (by decide)⟩)

/-- Claim C5: a callback whose query carries an `error` parameter (with a
description) is answered 200, both values appear verbatim in the body, and
no redirect, token application or notification happens. -/
theorem CallbackHandler_provider_error (baseURI : String) (v : Identity)
    (r : CallbackRequest) (data : Query) (e d : String)
    (hp : r.parsed = some data) (he : data.error = some [e])
    (hd : data.errorDescription = [d]) :
    (CallbackHandler baseURI v r).resp.status = 200 ∧
    (CallbackHandler baseURI v r).resp.location = none ∧
    (∃ p q t2 : List Char,
      (CallbackHandler baseURI v r).resp.body.data =
        p ++ (e.data ++ (q ++ (d.data ++ t2)))) ∧
    (CallbackHandler baseURI v r).ts = v.ts ∧
    (CallbackHandler baseURI v r).events = [] := by
  refine ⟨?_, ?_, ?_, ?_, ?_⟩
  · simp [CallbackHandler, hp, he]
  · simp [CallbackHandler, hp, he]
  · refine ⟨"error: ".data ++ "[".data,
      "]".data ++ (": ".data ++ "[".data),
      "]".data ++ "\n".data, ?_⟩
    have hb : (CallbackHandler baseURI v r).resp.body =
        "error: " ++ renderList [e] ++ ": " ++ renderList [d] ++ "\n" := by
      simp [CallbackHandler, hp, he, hd]
    have h1 : renderList [e] = "[" ++ e ++ "]" := rfl
    have h2 : renderList [d] = "[" ++ d ++ "]" := rfl
    rw [hb, h1, h2]
    simp [String.data_append, List.append_assoc]
  · simp [CallbackHandler, hp, he]
  · simp [CallbackHandler, hp, he]

/-- Witness for `CallbackHandler_provider_error` at
`error=access_denied&error_description=user cancelled`. -/
theorem CallbackHandler_provider_error_witness :
    (CallbackHandler "https://base" sampleIdentity
      ⟨some ⟨some ["access_denied"], ["user cancelled"], none, none⟩,
        fun _ => .ok sampleToken⟩).resp.status = 200 ∧
    (CallbackHandler "https://base" sampleIdentity
      ⟨some ⟨some ["access_denied"], ["user cancelled"], none, none⟩,
        fun _ => .ok sampleToken⟩).resp.location = none ∧
    (∃ p q t2 : List Char,
      (CallbackHandler "https://base" sampleIdentity
        ⟨some ⟨some ["access_denied"], ["user cancelled"], none, none⟩,
          fun _ => .ok sampleToken⟩).resp.body.data =
        p ++ ("access_denied".data ++ (q ++ ("user cancelled".data ++ t2)))) ∧
    (CallbackHandler "https://base" sampleIdentity
      ⟨some ⟨some ["access_denied"], ["user cancelled"], none, none⟩,
        fun _ => .ok sampleToken⟩).ts = sampleIdentity.ts ∧
    (CallbackHandler "https://base" sampleIdentity
      ⟨some ⟨some ["access_denied"], ["user cancelled"], none, none⟩,
        fun _ => .ok sampleToken⟩).events = [] :=
  CallbackHandler_provider_error "https://base" sampleIdentity
    ⟨some ⟨some ["access_denied"], ["user cancelled"], none, none⟩,
      fun _ => .ok sampleToken⟩
    ⟨some ["access_denied"], ["user cancelled"], none, none⟩
    "access_denied" "user cancelled" rfl rfl rfl

/-- Claim C9: when the code exchange succeeds but the returned token fails
`token.Valid()`, the handler still answers 302 to the base URI while
applying no token and sending no notification. -/
theorem CallbackHandler_invalid_token (baseURI : String) (v : Identity)
    (r : CallbackRequest) (data : Query) (st c : String) (token : OAuthToken)
    (hp : r.parsed = some data) (he : data.error = none)
    (hst : data.state = some [st])
    (hv : Validate st v.sessionSecret = .ok ())
    (hc : data.code = some [c])
    (hx : r.exchange c = .ok token) (htv : token.valid = false) :
    (CallbackHandler baseURI v r).resp.status = 302 ∧
    (CallbackHandler baseURI v r).resp.location = some baseURI ∧
    (CallbackHandler baseURI v r).ts = v.ts ∧
    (CallbackHandler baseURI v r).events = [] := by
  refine ⟨?_, ?_, ?_, ?_⟩ <;>
    simp [CallbackHandler, hp, he, hst, hv, hc, hx, htv]

/-- Witness for `CallbackHandler_invalid_token` at a concrete request whose
exchange yields an invalid token. -/
theorem CallbackHandler_invalid_token_witness :
    (CallbackHandler "https://base" sampleIdentity
      ⟨some ⟨none, [], some [mintState 0 0], some ["c"]⟩,
        fun _ => .ok sampleBadToken⟩).resp.status = 302 ∧
    (CallbackHandler "https://base" sampleIdentity
      ⟨some ⟨none, [], some [mintState 0 0], some ["c"]⟩,
        fun _ => .ok sampleBadToken⟩).resp.location = some "https://base" ∧
    (CallbackHandler "https://base" sampleIdentity
      ⟨some ⟨none, [], some [mintState 0 0], some ["c"]⟩,
        fun _ => .ok sampleBadToken⟩).ts = sampleIdentity.ts ∧
    (CallbackHandler "https://base" sampleIdentity
      ⟨some ⟨none, [], some [mintState 0 0], some ["c"]⟩,
        fun _ => .ok sampleBadToken⟩).events = [] :=
  CallbackHandler_invalid_token "https://base" sampleIdentity
    ⟨some ⟨none, [], some [mintState 0 0], some ["c"]⟩,
      fun _ => .ok sampleBadToken⟩
    ⟨none, [], some [mintState 0 0], some ["c"]⟩
    (mintState 0 0) "c" sampleBadToken
    rfl rfl rfl (Validate_mintState 0 0) rfl rfl rfl

/-- Claim C6: within a single callback, state validation strictly precedes
the code exchange, which strictly precedes token application and the
`true` notification: the trace of performed steps is always one of the six
prefixes of the success sequence, and any later step is preceded by the
successful completion of every earlier step. -/
theorem CallbackHandler_step_order (baseURI : String) (v : Identity)
    (r : CallbackRequest) :
    (CallbackHandler baseURI v r).trace ∈
      ([[], [Step.validateFail], [Step.validateOk],
        [Step.validateOk, Step.exchangeFail],
        [Step.validateOk, Step.exchangeOk],
        [Step.validateOk, Step.exchangeOk, Step.applyToken, Step.notify]] :
        List (List Step)) ∧
    ((Step.exchangeOk ∈ (CallbackHandler baseURI v r).trace ∨
      Step.exchangeFail ∈ (CallbackHandler baseURI v r).trace) →
      (CallbackHandler baseURI v r).trace.take 1 = [Step.validateOk]) ∧
    (Step.applyToken ∈ (CallbackHandler baseURI v r).trace →
      (CallbackHandler baseURI v r).trace.take 2 =
        [Step.validateOk, Step.exchangeOk]) ∧
    (Step.notify ∈ (CallbackHandler baseURI v r).trace →
      (CallbackHandler baseURI v r).trace.take 3 =
        [Step.validateOk, Step.exchangeOk, Step.applyToken]) := by
  obtain ⟨parsed, exchange⟩ := r
  cases parsed with
  | none => simp [CallbackHandler]
  | some data =>
    obtain ⟨derror, ddesc, dstate, dcode⟩ := data
    cases derror with
    | some errs => simp [CallbackHandler]
    | none =>
      cases dstate with
      | none => simp [CallbackHandler]
      | some sts =>
        match sts with
        | [] => simp [CallbackHandler]
        | st :: b :: tl => simp [CallbackHandler]
        | [st] =>
          cases hval : Validate st v.sessionSecret with
          | error e => simp [CallbackHandler, hval]
          | ok u =>
            cases u
            cases dcode with
            | none => simp [CallbackHandler, hval]
            | some codes =>
              match codes with
              | [] => simp [CallbackHandler, hval]
              | c :: b :: tl => simp [CallbackHandler, hval]
              | [c] =>
                cases hx : exchange c with
                | error e2 => simp [CallbackHandler, hval, hx]
                | ok token =>
                  cases htv : token.valid with
                  | true => simp [CallbackHandler, hval, hx, htv]
                  | false => simp [CallbackHandler, hval, hx, htv]

end Mercedes
